import Mathlib

/-!
# Verification of the Particle-Physics repository core

Shallow embedding of the two algorithmic pieces of the repository:

* `generatePositions` from `src/utils/math.ts` — the procedural shape
  generator (five templates selected by a string, plus a default branch that
  leaves all coordinates at zero);
* the per-frame animation step of the `ParticleSystem` component
  (`useFrame` callback in `src/unnamed/part_000`) — per-point exponential
  easing toward a target buffer plus additive trigonometric jitter, followed
  by a whole-cloud rigid transform (scale / rotation) driven by the gesture
  state.

Modelling conventions:

* JavaScript floating-point numbers are modelled by the reals `ℝ`;
* a `Float32Array` of length `3·count` is modelled as a list of `Point3`
  (slot `3i, 3i+1, 3i+2` of the flat array is point `i`), or, for the
  generator output, as the flat `List ℝ` itself;
* `Math.random()` is modelled by an explicit stream of draws: each loop
  iteration `i` receives a function `rnd : ℕ → ℝ`, `rnd k` being the value
  of the `k`-th call to `Math.random()` inside that iteration, with the
  hypothesis `0 ≤ rnd k < 1` supplied where a theorem needs it;
* the branch guards `i < count * 0.6`, `segment < 0.3`, `segment < 0.7`
  (real comparisons in the source, with `segment = i / count`) are written
  as the exactly equivalent natural-number comparisons `10 * i < 6 * count`,
  `10 * i < 3 * count`, `10 * i < 7 * count`;
* the in-place mutation of the live buffer and of the object transform is
  modelled by explicit state passing: `step` maps a `SysState` to the next
  `SysState`, leaving the target buffer and the gesture untouched.
-/

/-- A 3D point: the three consecutive slots `3i, 3i+1, 3i+2` of the flat
position array. -/
structure Point3 where
  x : ℝ
  y : ℝ
  z : ℝ

/-- The gesture state produced by the external gesture service
(`src/App.tsx` / `src/unnamed/part_001`): `{expansion, rotation, isDetected}`. -/
structure GestureState where
  expansion : ℝ
  rotation : ℝ
  isDetected : Bool

/-- The whole-cloud rigid transform held on the rendered `points` object:
uniform scale, cumulative rotation about the y axis and about the z axis. -/
structure CloudTransform where
  scale : ℝ
  rotY : ℝ
  rotZ : ℝ

/-- The initial gesture state of the application:
`useState<GestureState>({ expansion: 0, rotation: 0, isDetected: false })`
in `src/App.tsx`. -/
def initialGesture : GestureState := ⟨0, 0, false⟩

/-- The phyllotaxis radius of the FLOWER branch:
`radius = 15 * Math.sqrt(i / count)` (`src/utils/math.ts`). -/
noncomputable def flowerRadius (count i : ℕ) : ℝ :=
  15 * Real.sqrt ((i : ℝ) / (count : ℝ))

/-- The phyllotaxis angle of the FLOWER branch:
`angle = i * 137.5 * (Math.PI / 180)` (`src/utils/math.ts`). -/
noncomputable def flowerAngle (i : ℕ) : ℝ :=
  (i : ℝ) * 137.5 * (Real.pi / 180)

/-- One loop iteration of `generatePositions` (`src/utils/math.ts`): the
point written at index `i` for template `type`, point count `count`, and
random draws `rnd` (the `k`-th `Math.random()` call of this iteration is
`rnd k`).  An unrecognized template leaves the point at the default
`(0, 0, 0)`. -/
noncomputable def genPoint (type : String) (count i : ℕ) (rnd : ℕ → ℝ) : Point3 :=
  -- const phi = Math.acos(-1 + (2 * i) / count)
  let phi : ℝ := Real.arccos (-1 + (2 * (i : ℝ)) / (count : ℝ))
  -- const theta = Math.sqrt(count * Math.PI) * phi
  let theta : ℝ := Real.sqrt ((count : ℝ) * Real.pi) * phi
  match type with
  | "HEART" =>
      let angle := rnd 0 * Real.pi * 2
      let scale : ℝ := 0.5
      ⟨16 * Real.sin angle ^ 3 * scale,
       (13 * Real.cos angle - 5 * Real.cos (2 * angle) - 2 * Real.cos (3 * angle)
          - Real.cos (4 * angle)) * scale,
       (rnd 1 - 0.5) * 5⟩
  | "FLOWER" =>
      let radius := flowerRadius count i
      let angle := flowerAngle i
      ⟨radius * Real.cos angle, radius * Real.sin angle, Real.sin (radius * 0.5) * 2⟩
  | "SATURN" =>
      if 10 * i < 6 * count then -- i < count * 0.6
        let r : ℝ := 10
        ⟨r * Real.sin phi * Real.cos theta,
         r * Real.sin phi * Real.sin theta,
         r * Real.cos phi⟩
      else
        -- r = inner + (outer - inner) * Math.random(), inner = 14, outer = 22
        let r : ℝ := 14 + (22 - 14) * rnd 0
        let angle := rnd 1 * Real.pi * 2
        ⟨r * Real.cos angle, (rnd 2 - 0.5) * 0.5, r * Real.sin angle⟩
  | "BUDDHA" =>
      let segment : ℝ := (i : ℝ) / (count : ℝ)
      if 10 * i < 3 * count then -- segment < 0.3, head & torso
        ⟨(rnd 0 - 0.5) * 6, segment * 20 - 5, (rnd 1 - 0.5) * 4⟩
      else if 10 * i < 7 * count then -- segment < 0.7, crossed legs
        let legT := (segment - 0.3) * 10
        ⟨Real.sin legT * 12, -10 + rnd 0 * 2, Real.cos legT * 8⟩
      else -- aura
        let r := 15 + rnd 0 * 5
        let a := rnd 1 * Real.pi
        ⟨r * Real.cos a, r * Real.sin a - 5, -5⟩
  | "FIREWORKS" =>
      -- Math.pow(Math.random(), 0.5) * 20
      let r := Real.sqrt (rnd 0) * 20
      ⟨r * Real.sin phi * Real.cos theta,
       r * Real.sin phi * Real.sin theta,
       r * Real.cos phi⟩
  | _ => ⟨0, 0, 0⟩

/-- The function `generatePositions(type, count)` (`src/utils/math.ts`): the flat array of
`3·count` coordinates; `rnd i` is the stream of random draws of iteration `i`. -/
noncomputable def generatePositions (type : String) (count : ℕ)
    (rnd : ℕ → ℕ → ℝ) : List ℝ :=
  (List.range count).flatMap (fun i =>
    [(genPoint type count i (rnd i)).x,
     (genPoint type count i (rnd i)).y,
     (genPoint type count i (rnd i)).z])

/-- The easing half of the per-point update (`useFrame` callback,
`src/unnamed/part_000` lines 52–54):
`positions[c] += (target[c] - positions[c]) * 0.1` for the three coordinates. -/
noncomputable def easePoint (live target : Point3) : Point3 :=
  ⟨live.x + (target.x - live.x) * 0.1,
   live.y + (target.y - live.y) * 0.1,
   live.z + (target.z - live.z) * 0.1⟩

/-- The full per-point update of the `useFrame` callback: easing toward the
target (lines 52–54) followed by the additive jitter
`x += sin(time + i) * 0.02; y += cos(time + i) * 0.02` (lines 57–58);
`z` receives no jitter. -/
noncomputable def stepPoint (live target : Point3) (i : ℕ) (time : ℝ) : Point3 :=
  let eased := easePoint live target
  ⟨eased.x + Real.sin (time + (i : ℝ)) * 0.02,
   eased.y + Real.cos (time + (i : ℝ)) * 0.02,
   eased.z⟩

/-- The loop of the `useFrame` callback over the live/target buffers, with
the point index threaded through (first argument is the index of the head
point). -/
noncomputable def stepBufferAux (time : ℝ) : ℕ → List Point3 → List Point3 → List Point3
  | _, [], _ => []
  | _, _ :: _, [] => []
  | i, l :: ls, tg :: tgs => stepPoint l tg i time :: stepBufferAux time (i + 1) ls tgs

/-- The per-frame buffer update: every point `i` of the live buffer is
replaced by `stepPoint live[i] target[i] i time`. -/
noncomputable def stepBuffer (live target : List Point3) (time : ℝ) : List Point3 :=
  stepBufferAux time 0 live target

/-- The whole-cloud rigid transform update at the end of the `useFrame`
callback (`src/unnamed/part_000` lines 65–67):
`scale.setScalar(1 + expansion * 2.5)`;
`rotation.y += 0.002 + rotation * 0.05`; `rotation.z += 0.001`. -/
noncomputable def stepTransform (tr : CloudTransform) (g : GestureState) : CloudTransform :=
  ⟨1 + g.expansion * 2.5,
   tr.rotY + (0.002 + g.rotation * 0.05),
   tr.rotZ + 0.001⟩

/-- The mutable state touched by one frame: the live buffer owned by the
geometry, the read-only target buffer, the latest gesture snapshot, and the
object transform. -/
structure SysState where
  live : List Point3
  target : List Point3
  gesture : GestureState
  transform : CloudTransform

/-- One invocation of the `useFrame` callback, as a state transformer: it
rewrites the live buffer point-by-point and updates the transform, and
touches nothing else. -/
noncomputable def step (s : SysState) (time : ℝ) : SysState :=
  { s with
    live := stepBuffer s.live s.target time
    transform := stepTransform s.transform s.gesture }

/-- Euclidean distance between two points. -/
noncomputable def dist3 (p q : Point3) : ℝ :=
  Real.sqrt ((p.x - q.x) ^ 2 + (p.y - q.y) ^ 2 + (p.z - q.z) ^ 2)

/-- The `n`-fold application of the easing update (jitter contribution held at
zero) to one point, target fixed. -/
noncomputable def easeIter (live target : Point3) : ℕ → Point3
  | 0 => live
  | n + 1 => easePoint (easeIter live target n) target

/-- Number of SATURN indices routed to the sphere branch
(`if (i < count * 0.6)`). -/
def saturnSphereCount (count : ℕ) : ℕ :=
  ((Finset.range count).filter (fun i => 10 * i < 6 * count)).card

/-- Number of SATURN indices routed to the ring branch (the `else`). -/
def saturnRingCount (count : ℕ) : ℕ :=
  ((Finset.range count).filter (fun i => ¬ 10 * i < 6 * count)).card

/-- Number of BUDDHA indices routed to the head/torso branch
(`segment < 0.3`). -/
def buddhaHeadCount (count : ℕ) : ℕ :=
  ((Finset.range count).filter (fun i => 10 * i < 3 * count)).card

/-- Number of BUDDHA indices routed to the crossed-legs branch
(`0.3 ≤ segment < 0.7`). -/
def buddhaLegsCount (count : ℕ) : ℕ :=
  ((Finset.range count).filter (fun i => ¬ 10 * i < 3 * count ∧ 10 * i < 7 * count)).card

/-- Number of BUDDHA indices routed to the aura branch (`segment ≥ 0.7`). -/
def buddhaAuraCount (count : ℕ) : ℕ :=
  ((Finset.range count).filter (fun i => ¬ 10 * i < 7 * count)).card

/-! ## Helper lemmas -/

lemma stepBufferAux_length (time : ℝ) (ls tgs : List Point3) (k : ℕ) :
    (stepBufferAux time k ls tgs).length = min ls.length tgs.length := by
  induction ls generalizing tgs k with
  | nil => cases tgs <;> simp [stepBufferAux]
  | cons l ls ih =>
    cases tgs with
    | nil => simp [stepBufferAux]
    | cons tg tgs =>
      simp only [stepBufferAux, List.length_cons, ih]
      omega

lemma stepBufferAux_getElem? (time : ℝ) (ls tgs : List Point3) (k i : ℕ)
    (h1 : i < ls.length) (h2 : i < tgs.length) :
    (stepBufferAux time k ls tgs)[i]? =
      some (stepPoint (ls.get ⟨i, h1⟩) (tgs.get ⟨i, h2⟩) (k + i) time) := by
  induction ls generalizing tgs k i with
  | nil => simp at h1
  | cons l ls ih =>
    cases tgs with
    | nil => simp at h2
    | cons tg tgs =>
      cases i with
      | zero => simp [stepBufferAux]
      | succ i =>
        have h1' : i < ls.length := Nat.lt_of_succ_lt_succ h1
        have h2' : i < tgs.length := Nat.lt_of_succ_lt_succ h2
        have := ih tgs (k + 1) i h1' h2'
        simp only [stepBufferAux, List.getElem?_cons_succ, List.get]
        rw [this]
        congr 2
        omega

lemma saturnSphereCount_eq (c : ℕ) : saturnSphereCount c = (6 * c + 9) / 10 := by
  rw [saturnSphereCount]
  have h : (Finset.range c).filter (fun i => 10 * i < 6 * c)
      = Finset.range ((6 * c + 9) / 10) := by
    ext i
    simp only [Finset.mem_filter, Finset.mem_range]
    omega
  rw [h, Finset.card_range]

lemma saturnRingCount_eq (c : ℕ) : saturnRingCount c = c - (6 * c + 9) / 10 := by
  rw [saturnRingCount]
  have h : (Finset.range c).filter (fun i => ¬ 10 * i < 6 * c)
      = Finset.Ico ((6 * c + 9) / 10) c := by
    ext i
    simp only [Finset.mem_filter, Finset.mem_range, Finset.mem_Ico]
    omega
  rw [h, Nat.card_Ico]

lemma buddhaHeadCount_eq (c : ℕ) : buddhaHeadCount c = (3 * c + 9) / 10 := by
  rw [buddhaHeadCount]
  have h : (Finset.range c).filter (fun i => 10 * i < 3 * c)
      = Finset.range ((3 * c + 9) / 10) := by
    ext i
    simp only [Finset.mem_filter, Finset.mem_range]
    omega
  rw [h, Finset.card_range]

lemma buddhaLegsCount_eq (c : ℕ) :
    buddhaLegsCount c = (7 * c + 9) / 10 - (3 * c + 9) / 10 := by
  rw [buddhaLegsCount]
  have h : (Finset.range c).filter (fun i => ¬ 10 * i < 3 * c ∧ 10 * i < 7 * c)
      = Finset.Ico ((3 * c + 9) / 10) ((7 * c + 9) / 10) := by
    ext i
    simp only [Finset.mem_filter, Finset.mem_range, Finset.mem_Ico]
    omega
  rw [h, Nat.card_Ico]

lemma buddhaAuraCount_eq (c : ℕ) : buddhaAuraCount c = c - (7 * c + 9) / 10 := by
  rw [buddhaAuraCount]
  have h : (Finset.range c).filter (fun i => ¬ 10 * i < 7 * c)
      = Finset.Ico ((7 * c + 9) / 10) c := by
    ext i
    simp only [Finset.mem_filter, Finset.mem_range, Finset.mem_Ico]
    omega
  rw [h, Nat.card_Ico]

lemma genPoint_default (type : String) (c i : ℕ) (rnd : ℕ → ℝ)
    (h1 : type ≠ "HEART") (h2 : type ≠ "FLOWER") (h3 : type ≠ "SATURN")
    (h4 : type ≠ "BUDDHA") (h5 : type ≠ "FIREWORKS") :
    genPoint type c i rnd = ⟨0, 0, 0⟩ := by
  unfold genPoint
  split <;> first
  | rfl
  | simp_all

lemma generatePositions_length (type : String) (c : ℕ) (rnd : ℕ → ℕ → ℝ) :
    (generatePositions type c rnd).length = 3 * c := by
  rw [generatePositions, List.length_flatMap]
  simp [Function.comp_def, List.map_const']
  omega

lemma dist3_ease (live target : Point3) :
    dist3 (easePoint live target) target = 0.9 * dist3 live target := by
  have h : ((easePoint live target).x - target.x) ^ 2
        + ((easePoint live target).y - target.y) ^ 2
        + ((easePoint live target).z - target.z) ^ 2
      = (0.9 : ℝ) ^ 2 * ((live.x - target.x) ^ 2 + (live.y - target.y) ^ 2
        + (live.z - target.z) ^ 2) := by
    simp only [easePoint]
    ring
  rw [dist3, dist3, h, Real.sqrt_mul (by positivity), Real.sqrt_sq (by norm_num)]

lemma dist3_easeIter (live target : Point3) (n : ℕ) :
    dist3 (easeIter live target n) target = 0.9 ^ n * dist3 live target := by
  induction n with
  | zero => simp [easeIter]
  | succ n ih =>
    rw [easeIter, dist3_ease, ih]
    ring

/-! ## Claims -/

/-- C1: a single `step` updates point `i` by first easing each coordinate
(`live[c] += (target[c] - live[c]) * 0.1`) and then adding the jitter
`sin(t + i) * 0.02` to x and `cos(t + i) * 0.02` to y, z receiving no
jitter. -/
theorem c1_step_per_point (live target : List Point3) (t : ℝ) (i : ℕ)
    (h1 : i < live.length) (h2 : i < target.length) :
    (stepBuffer live target t)[i]? =
      some ⟨(live.get ⟨i, h1⟩).x
              + ((target.get ⟨i, h2⟩).x - (live.get ⟨i, h1⟩).x) * 0.1
              + Real.sin (t + (i : ℝ)) * 0.02,
            (live.get ⟨i, h1⟩).y
              + ((target.get ⟨i, h2⟩).y - (live.get ⟨i, h1⟩).y) * 0.1
              + Real.cos (t + (i : ℝ)) * 0.02,
            (live.get ⟨i, h1⟩).z
              + ((target.get ⟨i, h2⟩).z - (live.get ⟨i, h1⟩).z) * 0.1⟩ := by
  rw [stepBuffer, stepBufferAux_getElem? t live target 0 i h1 h2]
  simp [stepPoint, easePoint]

/-- C1 witness: one step with live `[0,0,0]`, target `[10,0,0]`, elapsed
time `0` yields the point `(1.0, 0.02, 0.0)` (in exact real arithmetic). -/
theorem c1_step_per_point_witness :
    (stepBuffer [⟨0, 0, 0⟩] [⟨10, 0, 0⟩] 0)[0]? = some ⟨1, 0.02, 0⟩ := by
  rw [c1_step_per_point [⟨0, 0, 0⟩] [⟨10, 0, 0⟩] 0 0 (by simp) (by simp)]
  norm_num [List.get]

/-- C2: with the jitter held at zero, each application of the easing step
multiplies every coordinate gap `target[c] - live[c]` by 0.9; hence the
Euclidean distance to the target after `n` iterations is exactly
`0.9^n` times the initial distance, the distance strictly decreases while
it is nonzero, and it falls below any `ε > 0` after a bounded number of
iterations (the geometric law `0.9^n · d₀` being what makes the bound
`≈ log ε / log 0.9`). -/
theorem c2_convergence (live target : Point3) :
    (target.x - (easePoint live target).x = 0.9 * (target.x - live.x)) ∧
    (target.y - (easePoint live target).y = 0.9 * (target.y - live.y)) ∧
    (target.z - (easePoint live target).z = 0.9 * (target.z - live.z)) ∧
    (∀ n : ℕ, dist3 (easeIter live target n) target = 0.9 ^ n * dist3 live target) ∧
    (0 < dist3 live target →
      dist3 (easePoint live target) target < dist3 live target) ∧
    (∀ e : ℝ, 0 < e → ∃ N : ℕ, ∀ n, N ≤ n →
      dist3 (easeIter live target n) target < e) := by
  refine ⟨by simp only [easePoint]; ring, by simp only [easePoint]; ring,
    by simp only [easePoint]; ring, dist3_easeIter live target, ?_, ?_⟩
  · intro hd
    rw [dist3_ease]
    linarith
  · intro e he
    have hd0 : 0 ≤ dist3 live target := Real.sqrt_nonneg _
    have hpos : (0 : ℝ) < dist3 live target + 1 := by linarith
    obtain ⟨N, hN⟩ :=
      exists_pow_lt_of_lt_one (div_pos he hpos) (by norm_num : (0.9 : ℝ) < 1)
    have key : (0.9 : ℝ) ^ N * (dist3 live target + 1) < e := (lt_div_iff₀ hpos).mp hN
    refine ⟨N, fun n hn => ?_⟩
    rw [dist3_easeIter]
    have h1 : (0.9 : ℝ) ^ n ≤ 0.9 ^ N :=
      pow_le_pow_of_le_one (by norm_num) (by norm_num) hn
    have hp : (0 : ℝ) ≤ 0.9 ^ N := by positivity
    nlinarith [mul_le_mul_of_nonneg_right h1 hd0]

/-- C2 witness: for live `(0,0,0)` and target `(1,0,0)` one easing step
strictly decreases the distance to the target, and the iterates eventually
come within distance 1. -/
theorem c2_convergence_witness :
    dist3 (easePoint ⟨0, 0, 0⟩ ⟨1, 0, 0⟩) ⟨1, 0, 0⟩ < dist3 ⟨0, 0, 0⟩ ⟨1, 0, 0⟩ ∧
    ∃ N : ℕ, ∀ n, N ≤ n → dist3 (easeIter ⟨0, 0, 0⟩ ⟨1, 0, 0⟩ n) ⟨1, 0, 0⟩ < 1 := by
  have h := c2_convergence ⟨0, 0, 0⟩ ⟨1, 0, 0⟩
  have hd : dist3 (⟨0, 0, 0⟩ : Point3) ⟨1, 0, 0⟩ = 1 := by
    rw [dist3]
    norm_num [Real.sqrt_one]
  exact ⟨h.2.2.2.2.1 (by rw [hd]; norm_num), h.2.2.2.2.2 1 (by norm_num)⟩

/-- C3: every invocation of the transform update sets the uniform scale to
`1 + expansion * 2.5` (so expansion 0 gives scale 1, expansion 1 gives
scale 3.5), increments the first rotation axis by `0.002 + rotation * 0.05`
and the second axis by the constant `0.001`, for every gesture value,
`isDetected` included. -/
theorem c3_transform_update (tr : CloudTransform) (g : GestureState)
    (r : ℝ) (d : Bool) :
    (stepTransform tr g).scale = 1 + g.expansion * 2.5 ∧
    (stepTransform tr ⟨0, r, d⟩).scale = 1 ∧
    (stepTransform tr ⟨1, r, d⟩).scale = 3.5 ∧
    (stepTransform tr g).rotY = tr.rotY + (0.002 + g.rotation * 0.05) ∧
    (stepTransform tr g).rotZ = tr.rotZ + 0.001 := by
  refine ⟨rfl, ?_, ?_, rfl, rfl⟩ <;> norm_num [stepTransform]

/-- C4: in the SATURN template, every index with `i < 0.6·count`
(equivalently `10·i < 6·count`) is placed with polar angle
`phi = acos(-1 + 2i/count)` and azimuth `theta = √(count·π)·phi` exactly on
the sphere of radius 10 (`x² + y² + z² = 100` in exact real arithmetic), and
every remaining index is a ring point with radial distance `√(x² + z²)` in
`[14, 22]` and thin coordinate `y` in `[-0.25, 0.25]`, given random draws in
`[0, 1)`. -/
theorem c4_saturn (count i : ℕ) (rnd : ℕ → ℝ)
    (h0 : 0 ≤ rnd 0) (h0' : rnd 0 < 1) (h2 : 0 ≤ rnd 2) (h2' : rnd 2 < 1) :
    (10 * i < 6 * count →
      genPoint "SATURN" count i rnd =
        ⟨10 * Real.sin (Real.arccos (-1 + (2 * (i : ℝ)) / count))
           * Real.cos (Real.sqrt ((count : ℝ) * Real.pi)
               * Real.arccos (-1 + (2 * (i : ℝ)) / count)),
         10 * Real.sin (Real.arccos (-1 + (2 * (i : ℝ)) / count))
           * Real.sin (Real.sqrt ((count : ℝ) * Real.pi)
               * Real.arccos (-1 + (2 * (i : ℝ)) / count)),
         10 * Real.cos (Real.arccos (-1 + (2 * (i : ℝ)) / count))⟩ ∧
      (genPoint "SATURN" count i rnd).x ^ 2 + (genPoint "SATURN" count i rnd).y ^ 2
        + (genPoint "SATURN" count i rnd).z ^ 2 = 100) ∧
    (¬ 10 * i < 6 * count →
      14 ≤ Real.sqrt ((genPoint "SATURN" count i rnd).x ^ 2
          + (genPoint "SATURN" count i rnd).z ^ 2) ∧
      Real.sqrt ((genPoint "SATURN" count i rnd).x ^ 2
          + (genPoint "SATURN" count i rnd).z ^ 2) ≤ 22 ∧
      -0.25 ≤ (genPoint "SATURN" count i rnd).y ∧
      (genPoint "SATURN" count i rnd).y ≤ 0.25) := by
  have hgen : genPoint "SATURN" count i rnd =
      if 10 * i < 6 * count then
        (⟨10 * Real.sin (Real.arccos (-1 + (2 * (i : ℝ)) / count))
            * Real.cos (Real.sqrt ((count : ℝ) * Real.pi)
                * Real.arccos (-1 + (2 * (i : ℝ)) / count)),
          10 * Real.sin (Real.arccos (-1 + (2 * (i : ℝ)) / count))
            * Real.sin (Real.sqrt ((count : ℝ) * Real.pi)
                * Real.arccos (-1 + (2 * (i : ℝ)) / count)),
          10 * Real.cos (Real.arccos (-1 + (2 * (i : ℝ)) / count))⟩ : Point3)
      else
        ⟨(14 + (22 - 14) * rnd 0) * Real.cos (rnd 1 * Real.pi * 2),
         (rnd 2 - 0.5) * 0.5,
         (14 + (22 - 14) * rnd 0) * Real.sin (rnd 1 * Real.pi * 2)⟩ := rfl
  constructor
  · intro h
    rw [hgen, if_pos h]
    refine ⟨rfl, ?_⟩
    have hth := Real.sin_sq_add_cos_sq
      (Real.sqrt ((count : ℝ) * Real.pi) * Real.arccos (-1 + (2 * (i : ℝ)) / count))
    have hph := Real.sin_sq_add_cos_sq (Real.arccos (-1 + (2 * (i : ℝ)) / count))
    show (10 * Real.sin (Real.arccos (-1 + (2 * (i : ℝ)) / count))
        * Real.cos (Real.sqrt ((count : ℝ) * Real.pi)
            * Real.arccos (-1 + (2 * (i : ℝ)) / count))) ^ 2
      + (10 * Real.sin (Real.arccos (-1 + (2 * (i : ℝ)) / count))
        * Real.sin (Real.sqrt ((count : ℝ) * Real.pi)
            * Real.arccos (-1 + (2 * (i : ℝ)) / count))) ^ 2
      + (10 * Real.cos (Real.arccos (-1 + (2 * (i : ℝ)) / count))) ^ 2 = 100
    linear_combination
      (100 * Real.sin (Real.arccos (-1 + (2 * (i : ℝ)) / count)) ^ 2) * hth + 100 * hph
  · intro h
    rw [hgen, if_neg h]
    have hxz : ((14 + (22 - 14) * rnd 0) * Real.cos (rnd 1 * Real.pi * 2)) ^ 2
        + ((14 + (22 - 14) * rnd 0) * Real.sin (rnd 1 * Real.pi * 2)) ^ 2
        = (14 + (22 - 14) * rnd 0) ^ 2 := by
      linear_combination
        (14 + (22 - 14) * rnd 0) ^ 2 * Real.sin_sq_add_cos_sq (rnd 1 * Real.pi * 2)
    have hsq : Real.sqrt (((14 + (22 - 14) * rnd 0) * Real.cos (rnd 1 * Real.pi * 2)) ^ 2
        + ((14 + (22 - 14) * rnd 0) * Real.sin (rnd 1 * Real.pi * 2)) ^ 2)
        = 14 + (22 - 14) * rnd 0 := by
      rw [hxz, Real.sqrt_sq (by nlinarith)]
    refine ⟨?_, ?_, ?_, ?_⟩
    · show (14 : ℝ) ≤ Real.sqrt
        (((14 + (22 - 14) * rnd 0) * Real.cos (rnd 1 * Real.pi * 2)) ^ 2
          + ((14 + (22 - 14) * rnd 0) * Real.sin (rnd 1 * Real.pi * 2)) ^ 2)
      rw [hsq]
      nlinarith
    · show Real.sqrt
        (((14 + (22 - 14) * rnd 0) * Real.cos (rnd 1 * Real.pi * 2)) ^ 2
          + ((14 + (22 - 14) * rnd 0) * Real.sin (rnd 1 * Real.pi * 2)) ^ 2) ≤ (22 : ℝ)
      rw [hsq]
      nlinarith
    · show (-0.25 : ℝ) ≤ (rnd 2 - 0.5) * 0.5
      linarith
    · show (rnd 2 - 0.5) * 0.5 ≤ (0.25 : ℝ)
      linarith

/-- C4 witness: at `count = 1` index 0 takes the sphere branch and satisfies
`x² + y² + z² = 100`; index 1 takes the ring branch and, with all random
draws 0, has radial distance at least 14. -/
theorem c4_saturn_witness :
    ((genPoint "SATURN" 1 0 (fun _ => 0)).x ^ 2
      + (genPoint "SATURN" 1 0 (fun _ => 0)).y ^ 2
      + (genPoint "SATURN" 1 0 (fun _ => 0)).z ^ 2 = 100) ∧
    (14 ≤ Real.sqrt ((genPoint "SATURN" 1 1 (fun _ => 0)).x ^ 2
      + (genPoint "SATURN" 1 1 (fun _ => 0)).z ^ 2)) := by
  have hs := c4_saturn 1 0 (fun _ => 0) le_rfl (by norm_num) le_rfl (by norm_num)
  have hr := c4_saturn 1 1 (fun _ => 0) le_rfl (by norm_num) le_rfl (by norm_num)
  exact ⟨(hs.1 (by norm_num)).2, (hr.2 (by norm_num)).1⟩

/-- C5: in the BUDDHA template, every index with segment fraction
`i/count < 0.3` (equivalently `10·i < 3·count`) produces a head/torso point:
`x = (random − 0.5)·6 ∈ [−3, 3)`, `z = (random − 0.5)·4 ∈ [−2, 2)`, and
`y = (i/count)·20 − 5`, the linear map of the segment fraction whose values
at fractions 0 and 1 are −5 and 15. -/
theorem c5_buddha_head (count i : ℕ) (rnd : ℕ → ℝ)
    (h0 : 0 ≤ rnd 0) (h0' : rnd 0 < 1) (h1 : 0 ≤ rnd 1) (h1' : rnd 1 < 1)
    (hseg : 10 * i < 3 * count) :
    (genPoint "BUDDHA" count i rnd).x = (rnd 0 - 0.5) * 6 ∧
    -3 ≤ (genPoint "BUDDHA" count i rnd).x ∧
    (genPoint "BUDDHA" count i rnd).x < 3 ∧
    (genPoint "BUDDHA" count i rnd).z = (rnd 1 - 0.5) * 4 ∧
    -2 ≤ (genPoint "BUDDHA" count i rnd).z ∧
    (genPoint "BUDDHA" count i rnd).z < 2 ∧
    (genPoint "BUDDHA" count i rnd).y = ((i : ℝ) / count) * 20 - 5 ∧
    (0 : ℝ) * 20 - 5 = -5 ∧ (1 : ℝ) * 20 - 5 = 15 := by
  have hgen : genPoint "BUDDHA" count i rnd =
      if 10 * i < 3 * count then
        (⟨(rnd 0 - 0.5) * 6, ((i : ℝ) / count) * 20 - 5, (rnd 1 - 0.5) * 4⟩ : Point3)
      else if 10 * i < 7 * count then
        ⟨Real.sin ((((i : ℝ) / count) - 0.3) * 10) * 12, -10 + rnd 0 * 2,
         Real.cos ((((i : ℝ) / count) - 0.3) * 10) * 8⟩
      else
        ⟨(15 + rnd 0 * 5) * Real.cos (rnd 1 * Real.pi),
         (15 + rnd 0 * 5) * Real.sin (rnd 1 * Real.pi) - 5, -5⟩ := rfl
  rw [hgen, if_pos hseg]
  refine ⟨rfl, ?_, ?_, rfl, ?_, ?_, rfl, by norm_num, by norm_num⟩
  · show (-3 : ℝ) ≤ (rnd 0 - 0.5) * 6
    linarith
  · show (rnd 0 - 0.5) * 6 < (3 : ℝ)
    linarith
  · show (-2 : ℝ) ≤ (rnd 1 - 0.5) * 4
    linarith
  · show (rnd 1 - 0.5) * 4 < (2 : ℝ)
    linarith

/-- C5 witness: at `count = 1`, index 0 (fraction 0 < 0.3) with all random
draws 0: `x = -3`, `z = -2`, `y = 0/1·20 - 5 = -5`. -/
theorem c5_buddha_head_witness :
    (genPoint "BUDDHA" 1 0 (fun _ => 0)).x = ((0 : ℝ) - 0.5) * 6 ∧
    (genPoint "BUDDHA" 1 0 (fun _ => 0)).y = ((0 : ℝ) / 1) * 20 - 5 := by
  have h := c5_buddha_head 1 0 (fun _ => 0) le_rfl (by norm_num) le_rfl (by norm_num)
    (by norm_num)
  exact ⟨h.1, by rw [h.2.2.2.2.2.2.1]; norm_num⟩

/-- C6: FLOWER places point `i` at radius `15·√(i/count)` and angle
`i·137.5°` (in radians, `i·137.5·π/180`), with `x = r·cos`, `y = r·sin`,
`z = 2·sin(0.5·r)`; the radius is non-decreasing in `i` with point 0 at
radius 0, and consecutive angles differ by exactly `137.5°`. -/
theorem c6_flower (count i : ℕ) (rnd : ℕ → ℝ) (hc : 0 < count) :
    genPoint "FLOWER" count i rnd =
      ⟨flowerRadius count i * Real.cos (flowerAngle i),
       flowerRadius count i * Real.sin (flowerAngle i),
       Real.sin (flowerRadius count i * 0.5) * 2⟩ ∧
    flowerRadius count i ≤ flowerRadius count (i + 1) ∧
    flowerRadius count 0 = 0 ∧
    flowerAngle (i + 1) - flowerAngle i = 137.5 * (Real.pi / 180) := by
  refine ⟨rfl, ?_, ?_, ?_⟩
  · have hcpos : (0 : ℝ) < count := by exact_mod_cast hc
    have h1 : (i : ℝ) / count ≤ ((i + 1 : ℕ) : ℝ) / count := by
      rw [div_le_div_iff₀ hcpos hcpos]
      push_cast
      nlinarith
    exact mul_le_mul_of_nonneg_left (Real.sqrt_le_sqrt h1) (by norm_num)
  · simp [flowerRadius]
  · simp only [flowerAngle]
    push_cast
    ring

/-- C6 witness: the FLOWER properties at `count = 4`: point 0 at radius 0,
radius non-decreasing from index 1 to 2, consecutive angles 137.5° apart. -/
theorem c6_flower_witness :
    genPoint "FLOWER" 4 1 (fun _ => 0) =
      ⟨flowerRadius 4 1 * Real.cos (flowerAngle 1),
       flowerRadius 4 1 * Real.sin (flowerAngle 1),
       Real.sin (flowerRadius 4 1 * 0.5) * 2⟩ ∧
    flowerRadius 4 1 ≤ flowerRadius 4 2 ∧
    flowerRadius 4 0 = 0 ∧
    flowerAngle 2 - flowerAngle 1 = 137.5 * (Real.pi / 180) := by
  exact c6_flower 4 1 (fun _ => 0) (by norm_num)

/-- C7: for SATURN (fractions 0.6/0.4, guard `10·i < 6·count`) and BUDDHA
(fractions 0.3/0.4/0.3, guards `10·i < 3·count` and `10·i < 7·count`) the
branch counts sum to `count` — every index goes to exactly one branch, no
overlap, no omission — and each branch receives `⌊count·fraction⌋ ± 1`
indices (`⌊count·f⌋` written with natural division). -/
theorem c7_segment_partition (c : ℕ) (hc : 0 < c) :
    (saturnSphereCount c + saturnRingCount c = c) ∧
    (6 * c / 10 ≤ saturnSphereCount c ∧ saturnSphereCount c ≤ 6 * c / 10 + 1) ∧
    (4 * c / 10 ≤ saturnRingCount c + 1 ∧ saturnRingCount c ≤ 4 * c / 10 + 1) ∧
    (buddhaHeadCount c + buddhaLegsCount c + buddhaAuraCount c = c) ∧
    (3 * c / 10 ≤ buddhaHeadCount c ∧ buddhaHeadCount c ≤ 3 * c / 10 + 1) ∧
    (4 * c / 10 ≤ buddhaLegsCount c + 1 ∧ buddhaLegsCount c ≤ 4 * c / 10 + 1) ∧
    (3 * c / 10 ≤ buddhaAuraCount c + 1 ∧ buddhaAuraCount c ≤ 3 * c / 10 + 1) := by
  rw [saturnSphereCount_eq, saturnRingCount_eq, buddhaHeadCount_eq,
    buddhaLegsCount_eq, buddhaAuraCount_eq]
  omega

/-- C7 witness: at `count = 10` the SATURN branches split 6/4 and the BUDDHA
branches split 3/4/3, summing to 10. -/
theorem c7_segment_partition_witness :
    (saturnSphereCount 10 + saturnRingCount 10 = 10) ∧
    (buddhaHeadCount 10 + buddhaLegsCount 10 + buddhaAuraCount 10 = 10) := by
  have h := c7_segment_partition 10 (by norm_num)
  exact ⟨h.1, h.2.2.2.1⟩

/-- C8: an unrecognized template value produces, without any error, the flat
sequence of length `3·count` with every coordinate equal to zero. -/
theorem c8_unknown_template (type : String) (c : ℕ) (rnd : ℕ → ℕ → ℝ)
    (_hc : 0 < c)
    (h1 : type ≠ "HEART") (h2 : type ≠ "FLOWER") (h3 : type ≠ "SATURN")
    (h4 : type ≠ "BUDDHA") (h5 : type ≠ "FIREWORKS") :
    (generatePositions type c rnd).length = 3 * c ∧
    ∀ v ∈ generatePositions type c rnd, v = 0 := by
  refine ⟨generatePositions_length type c rnd, ?_⟩
  intro v hv
  rw [generatePositions] at hv
  simp only [List.mem_flatMap, List.mem_range, List.mem_cons,
    List.not_mem_nil, or_false] at hv
  obtain ⟨i, _, hv⟩ := hv
  rw [genPoint_default type c i (rnd i) h1 h2 h3 h4 h5] at hv
  rcases hv with h | h | h <;> simp [h]

/-- C8 witness: `generate "SPIRAL" 1` yields a flat list of length 3 with
every entry zero. -/
theorem c8_unknown_template_witness :
    (generatePositions "SPIRAL" 1 (fun _ _ => 0)).length = 3 ∧
    ∀ v ∈ generatePositions "SPIRAL" 1 (fun _ _ => 0), v = 0 := by
  have h := c8_unknown_template "SPIRAL" 1 (fun _ _ => 0) (by norm_num)
    (by decide) (by decide) (by decide) (by decide) (by decide)
  exact ⟨h.1, h.2⟩

/-- C9: one invocation of `step` leaves the target buffer and the gesture
state unchanged, keeps the live buffer's length (never resizes), and
modifies only the live buffer's element values and the cloud transform;
the mutation is modelled by the returned state. -/
theorem c9_frame_effect (s : SysState) (t : ℝ)
    (h : s.live.length = s.target.length) :
    (step s t).target = s.target ∧
    (step s t).gesture = s.gesture ∧
    (step s t).live.length = s.live.length := by
  refine ⟨rfl, rfl, ?_⟩
  simp [step, stepBuffer, stepBufferAux_length, h]

/-- C9 witness: on a concrete one-point state, `step` preserves the target
buffer and the live buffer's length. -/
theorem c9_frame_effect_witness :
    (step ⟨[⟨0, 0, 0⟩], [⟨1, 2, 3⟩], ⟨0, 0, false⟩, ⟨1, 0, 0⟩⟩ 0).target
        = [⟨1, 2, 3⟩] ∧
    (step ⟨[⟨0, 0, 0⟩], [⟨1, 2, 3⟩], ⟨0, 0, false⟩, ⟨1, 0, 0⟩⟩ 0).live.length = 1 := by
  have h := c9_frame_effect ⟨[⟨0, 0, 0⟩], [⟨1, 2, 3⟩], ⟨0, 0, false⟩, ⟨1, 0, 0⟩⟩ 0 rfl
  exact ⟨h.1, h.2.2⟩

/-- C10: before the first gesture report arrives the gesture state is
exactly `{expansion := 0, rotation := 0, isDetected := false}`, so initial
frames apply scale 1 and only the idle rotation increments 0.002 and
0.001. -/
theorem c10_initial_gesture (tr : CloudTransform) :
    initialGesture.expansion = 0 ∧
    initialGesture.rotation = 0 ∧
    initialGesture.isDetected = false ∧
    (stepTransform tr initialGesture).scale = 1 ∧
    (stepTransform tr initialGesture).rotY = tr.rotY + 0.002 ∧
    (stepTransform tr initialGesture).rotZ = tr.rotZ + 0.001 := by
  refine ⟨rfl, rfl, rfl, ?_, ?_, rfl⟩ <;> simp [stepTransform, initialGesture]
